import Mathlib

/-!
Verification of the session-lifecycle controller of the WhatsApp web gateway
(`src/simple-api-wwebjs-main/main.js` and the unnamed variants, notably
`src/unnamed/part_003`).

The embedding below translates the JavaScript control logic into Lean:
  * the Mongo `sessions` collection and its `sessions_backup.latest` slot
    become a `Store` of documents keyed by `_id`;
  * `backupSessions` / `restoreSessionsIfMissing` (main.js lines 55-89)
    become pure functions on `Store`;
  * the module-level mutable flags (`qrValue`, `clientReady`,
    `initializing`, `client`) become a `CtrlState` record, and the event
    handlers / `initClient` phases become state-transition functions;
  * the HTTP send endpoints become functions from the request data, the
    configured password and the dispatch outcome to a response record.
JavaScript truthiness on optional strings is modelled by `falsyStr`.
-/

/-- A document of the primary `sessions` collection.  Mongo documents carry a
unique `_id`; the rest of the document is opaque to the controller and is
modelled as a single `payload` field (`$set: doc` therefore replaces the
stored document with `d`). -/
structure SDoc where
  _id : String
  payload : String
deriving Repr, DecidableEq

/-- The persistence layer seen by the controller: the primary `sessions`
collection plus the `sessions_backup` collection's single `latest` document
(`none` when no backup document exists or it has no `data` array). -/
structure Store where
  sessions : List SDoc
  backup : Option (List SDoc)
deriving Repr, DecidableEq

/-- `updateOne({_id: d._id}, {$set: d}, {upsert: true})` on a collection:
replace the matching document when one exists, otherwise insert `d`
(main.js line 78). -/
def upsertOne (coll : List SDoc) (d : SDoc) : List SDoc :=
  if coll.any (fun x => x._id == d._id) then
    coll.map (fun x => if x._id == d._id then d else x)
  else
    coll ++ [d]

/-- `backupSessions` (main.js lines 55-67): read every document of
`sessions` and overwrite the `sessions_backup.latest` slot with them. -/
def backupSessions (st : Store) : Store :=
  { st with backup := some st.sessions }

/-- `restoreSessionsIfMissing` (main.js lines 69-89): if the primary
collection has documents, return `false` and change nothing; otherwise, if
the backup slot is absent or its `data` array empty, return `false`;
otherwise upsert every backed-up document into `sessions` (by its original
`_id`) and return `true`. -/
def restoreSessionsIfMissing (st : Store) : Store × Bool :=
  if st.sessions.length > 0 then (st, false)
  else
    match st.backup with
    | none => (st, false)
    | some data =>
      if data.length = 0 then (st, false)
      else ({ st with sessions := List.foldl upsertOne st.sessions data }, true)

/-- JavaScript truthiness of an optional string: `undefined` and the empty
string are falsy, every other string is truthy. -/
def falsyStr : Option String → Bool
  | none => true
  | some s => s == ""

/-- The browser bootstrap configuration passed to the client constructor. -/
structure PuppeteerConfig where
  headless : Bool
  executablePath : String
  args : List String
deriving Repr, DecidableEq

/-- The flag list of the full-bootstrap configuration (main.js
lines 144-164). -/
def chromiumArgs : List String :=
  [ "--no-sandbox",
    "--disable-setuid-sandbox",
    "--disable-dev-shm-usage",
    "--single-process",
    "--no-zygote",
    "--disable-gpu",
    "--disable-extensions",
    "--disable-background-networking",
    "--disable-background-timer-throttling",
    "--disable-client-side-phishing-detection",
    "--disable-default-apps",
    "--disable-sync",
    "--disable-translate",
    "--metrics-recording-only",
    "--mute-audio",
    "--no-first-run",
    "--safebrowsing-disable-auto-update",
    "--disable-renderer-backgrounding",
    "--renderer-process-limit=1" ]

/-- `FORCE_PUPPETEER` parsing (main.js line 138):
`String(process.env.FORCE_PUPPETEER || "").toLowerCase() === "true"`. -/
def forcePuppeteer (envVal : Option String) : Bool :=
  (envVal.getD "").toLower == "true"

/-- Launch-mode selection (main.js lines 141-165): with an existing session
and no force flag the client is constructed without a puppeteer
configuration (`undefined`, resume mode); otherwise it gets the full
bootstrap configuration, whose executable path defaults to
`/usr/bin/chromium`. -/
def puppeteerOptions (hasSession forceP : Bool) (execPath : Option String) :
    Option PuppeteerConfig :=
  if !hasSession || forceP then
    some { headless := true,
           executablePath := execPath.getD "/usr/bin/chromium",
           args := chromiumArgs }
  else none

/-- The session-presence probe of `initClient` (main.js lines 130-136):
`hasSession = (countDocuments of sessions) > 0`. -/
def hasSessionCheck (st : Store) : Bool :=
  st.sessions.length > 0

/-- The module-level mutable state of main.js: `qrValue` (line 27),
`clientReady` (line 28), `initializing` (line 29), whether `client` is
non-null (line 26), plus two instrumentation counters — how many times
`new Client(...)` has run (line 174) and how many times `backupSessions()`
has been invoked. -/
structure CtrlState where
  qrValue : Option String
  clientReady : Bool
  initializing : Bool
  clientAlive : Bool
  constructed : Nat
  backupCalls : Nat
deriving Repr, DecidableEq

/-- The synchronous entry guard of `initClient` (main.js lines 123-124):
`if (initializing) return; initializing = true;`.  The two statements run
with no intervening `await`, so on the single-threaded event loop they are
one atomic step.  Returns the new state and whether the invocation may
proceed to the body. -/
def initClientGuard (s : CtrlState) : CtrlState × Bool :=
  if s.initializing then (s, false)
  else ({ s with initializing := true }, true)

/-- Teardown of a pre-existing handle inside `initClient` (main.js
lines 168-172): destroy the current client if there is one and clear the
ready flag. -/
def destroyIfPresent (s : CtrlState) : CtrlState :=
  if s.clientAlive then { s with clientAlive := false, clientReady := false }
  else s

/-- `client = new Client({...})` (main.js line 174): one more Automation
Session Handle is constructed and becomes the current client. -/
def constructClient (s : CtrlState) : CtrlState :=
  { s with clientAlive := true, constructed := s.constructed + 1 }

/-- The construction part of the `initClient` body: destroy any existing
handle, then construct the replacement (main.js lines 168-184). -/
def initClientBody (s : CtrlState) : CtrlState :=
  constructClient (destroyIfPresent s)

/-- Two overlapping `initClient` invocations: the body of `initClient`
suspends at its first `await` (the `countDocuments` probe, line 132), which
is after the guard but before the client construction, so under the event
loop both guards run before either body.  Each invocation then runs its
body only if its guard admitted it. -/
def twoConcurrentStarts (s : CtrlState) : CtrlState :=
  let p1 := initClientGuard s
  let p2 := initClientGuard p1.1
  let s3 := if p1.2 then initClientBody p2.1 else p2.1
  if p2.2 then initClientBody s3 else s3

/-- The `ready` event handler (main.js lines 191-197): set `clientReady`,
clear `qrValue`, and call `backupSessions()` once. -/
def onReady (s : CtrlState) : CtrlState :=
  { s with clientReady := true, qrValue := none,
           backupCalls := s.backupCalls + 1 }

/-- What the `disconnected` handler does, beyond the state update: whether
it destroyed the handle, how long the scheduled timeout is, and whether the
timeout callback re-enters `initClient`. -/
structure DisconnectAction where
  state : CtrlState
  destroyed : Bool
  delayMs : Nat
  restartsInit : Bool
deriving Repr, DecidableEq

/-- The `disconnected` event handler (main.js lines 204-213): clear the
ready flag, `await client.destroy()`, and schedule `initClient` again after
a 15000 ms timeout. -/
def onDisconnected (s : CtrlState) : DisconnectAction :=
  { state := { s with clientReady := false, clientAlive := false },
    destroyed := true,
    delayMs := 15000,
    restartsInit := true }

/-- The puppeteer options chosen by the restart that the `disconnected`
handler schedules: the restart goes through `initClient`, which re-runs the
`countDocuments` presence probe (main.js lines 130-136) against the store
as it stands at restart time and feeds the result to the launch-mode
selection (lines 141-165). -/
def disconnectRestartOptions (st : Store) (forceP : Bool)
    (execPath : Option String) : Option PuppeteerConfig :=
  puppeteerOptions (hasSessionCheck st) forceP execPath

/-- The retry ceiling of the `initClient` retry loop (main.js line 24). -/
def MAX_INIT_RETRIES : Nat := 6

/-- The backoff delay after failed attempt number `attempt` (main.js
line 227): `Math.min(30000, 2000 * Math.pow(2, attempt))`, where `attempt`
has just been incremented and so is `1` on the first failure. -/
def waitMs (attempt : Nat) : Nat :=
  min 30000 (2000 * 2 ^ attempt)

/-- An HTTP response of the send endpoints: status code, whether
`client.sendMessage` was invoked, and the `error` field of the JSON body
(`none` for the success body). -/
structure SendResponse where
  status : Nat
  dispatched : Bool
  error : Option String
deriving Repr, DecidableEq

/-- `POST /whatsapp/sendmessage` (main.js lines 268-283): 401 when the
`x-password` header differs from `WHATSAPP_API_PASSWORD`; 400 when `phone`
or `message` is falsy; 503 when the client is not ready; otherwise
`client.sendMessage` runs and its outcome yields 200 or (via the `catch`)
500 with the error message. -/
def sendmessage (envPw xPw phone message : Option String) (ready : Bool)
    (dispatch : Except String Unit) : SendResponse :=
  if xPw ≠ envPw then ⟨401, false, some "Invalid password"⟩
  else if falsyStr phone || falsyStr message then
    ⟨400, false, some "phone & message required"⟩
  else if !ready then ⟨503, false, some "Client not ready"⟩
  else
    match dispatch with
    | .ok _ => ⟨200, true, none⟩
    | .error e => ⟨500, true, some e⟩

/-- `POST /whatsapp/send` of the variant `src/unnamed/part_003`
(lines 238-252), with `WHATSAPP_API_PASSWORD = process.env... || ""`
(line 21): the 401 branch fires only when the configured password is a
truthy (non-empty) string AND the header differs from it. -/
def sendPart3 (envPwRaw xPw phone message : Option String) (ready : Bool)
    (dispatch : Except String Unit) : SendResponse :=
  let pw := envPwRaw.getD ""
  if pw ≠ "" ∧ xPw ≠ some pw then ⟨401, false, some "Invalid password"⟩
  else if falsyStr phone || falsyStr message then
    ⟨400, false, some "phone & message required"⟩
  else if !ready then ⟨503, false, some "Client not ready"⟩
  else
    match dispatch with
    | .ok _ => ⟨200, true, none⟩
    | .error e => ⟨500, true, some e⟩

/-- Outcome of the startup block that runs once the HTTP server is
listening (main.js lines 298-308): the server is already serving, then the
async block tries `connectMongo()` and on success starts `initClient()`;
any error is caught and logged (`console.error("startup error", e)`) — the
block never calls `process.exit`. -/
structure StartupOutcome where
  serving : Bool
  initClientCalled : Bool
  exitCode : Option Nat
  loggedStartupError : Bool
deriving Repr, DecidableEq

/-- The main.js startup block (lines 298-308) as a function of whether the
Mongo connect succeeds. -/
def startupAfterListen (connectOk : Bool) : StartupOutcome :=
  if connectOk then
    { serving := true, initClientCalled := true, exitCode := none,
      loggedStartupError := false }
  else
    { serving := true, initClientCalled := false, exitCode := none,
      loggedStartupError := true }

/-- The `MONGODB_URI` guard of `src/unnamed/part_003` (lines 24-27):
`if (!MONGODB_URI) { console.error(...); process.exit(1); }` — a falsy
(absent or empty) connection string exits with code 1; the result is the
exit code when the guard fires. -/
def mongoUriGuard (uri : Option String) : Option Nat :=
  if falsyStr uri then some 1 else none

/-! ## Helper lemmas about the store operations -/

/-- An upsert never empties a collection. -/
lemma upsertOne_ne_nil (coll : List SDoc) (d : SDoc) : upsertOne coll d ≠ [] := by
  cases coll with
  | nil => simp [upsertOne]
  | cons x xs => unfold upsertOne; split <;> simp

/-- Folding upserts over any list keeps a nonempty collection nonempty. -/
lemma foldl_upsertOne_ne_nil (data coll : List SDoc) (h : coll ≠ []) :
    List.foldl upsertOne coll data ≠ [] := by
  induction data generalizing coll with
  | nil => simpa using h
  | cons d ds ih => exact ih (upsertOne coll d) (upsertOne_ne_nil coll d)

/-- Upserting a document whose `_id` is fresh for the collection appends it. -/
lemma upsertOne_of_not_mem (coll : List SDoc) (d : SDoc)
    (h : ∀ x ∈ coll, x._id ≠ d._id) : upsertOne coll d = coll ++ [d] := by
  have hany : coll.any (fun x => x._id == d._id) = false := by
    simp only [List.any_eq_false]
    intro x hx
    simpa using h x hx
  simp [upsertOne, hany]

/-- Folding upserts of documents with pairwise-distinct ids, all fresh for
the initial collection, appends them in order. -/
lemma foldl_upsertOne_append (data : List SDoc) :
    ∀ coll : List SDoc, (data.map SDoc._id).Nodup →
      (∀ x ∈ coll, ∀ y ∈ data, x._id ≠ y._id) →
      List.foldl upsertOne coll data = coll ++ data := by
  induction data with
  | nil => intro coll _ _; simp
  | cons d ds ih =>
    intro coll hnd hdisj
    have h1 : upsertOne coll d = coll ++ [d] :=
      upsertOne_of_not_mem coll d (fun x hx => hdisj x hx d (by simp))
    have hcons : (∀ x ∈ ds, ¬x._id = d._id) ∧ (ds.map SDoc._id).Nodup := by
      simpa using hnd
    have hdisj2 : ∀ x ∈ coll ++ [d], ∀ y ∈ ds, x._id ≠ y._id := by
      intro x hx y hy
      rcases List.mem_append.mp hx with hx | hx
      · exact hdisj x hx y (by simp [hy])
      · have hxd : x = d := by simpa using hx
        subst hxd
        exact fun heq => hcons.1 y hy heq.symm
    calc List.foldl upsertOne coll (d :: ds)
        = List.foldl upsertOne (upsertOne coll d) ds := rfl
      _ = (coll ++ [d]) ++ ds := by rw [h1]; exact ih (coll ++ [d]) hcons.2 hdisj2
      _ = coll ++ (d :: ds) := by simp

/-! ## Claim theorems -/

/-- C1: at most one Launching attempt is ever in flight.  If the
`initializing` flag is already set when `initClient` is invoked, the guard
returns immediately with the state unchanged and the body (which constructs
the Automation Session Handle) never runs; consequently two overlapping
start requests, whose guards both run before either body under the event
loop, construct exactly one new `Client`. -/
theorem initClient_single_flight :
    (∀ s : CtrlState, s.initializing = true → initClientGuard s = (s, false)) ∧
    (∀ s : CtrlState, s.initializing = false →
      (twoConcurrentStarts s).constructed = s.constructed + 1) := by
  constructor
  · intro s h
    simp [initClientGuard, h]
  · intro s h
    simp only [twoConcurrentStarts, initClientGuard, h, Bool.false_eq_true,
      if_false, if_true, initClientBody, constructClient]
    simp only [destroyIfPresent]
    split <;> simp

/-- Witness for C1 at concrete states: a state already flagged as in flight
is returned unchanged, and two overlapping starts from a quiescent state
construct exactly one client. -/
theorem initClient_single_flight_witness :
    initClientGuard ⟨none, false, true, true, 1, 0⟩ =
      (⟨none, false, true, true, 1, 0⟩, false) ∧
    (twoConcurrentStarts ⟨none, false, false, false, 0, 0⟩).constructed = 0 + 1 :=
  ⟨initClient_single_flight.1 ⟨none, false, true, true, 1, 0⟩ rfl,
   initClient_single_flight.2 ⟨none, false, false, false, 0, 0⟩ rfl⟩

/-- C2: launch-mode selection is a pure function of the presence check and
the force flag.  With an existing session and the force flag unset, the
client is constructed with no puppeteer configuration (resume mode); with
no session, or with the force flag set, it gets the full bootstrap
configuration (headless, chromium executable, full flag list). -/
theorem launch_mode_selection (hasSession forceP : Bool) (execPath : Option String) :
    (hasSession = true → forceP = false →
      puppeteerOptions hasSession forceP execPath = none) ∧
    (hasSession = false ∨ forceP = true →
      puppeteerOptions hasSession forceP execPath =
        some { headless := true,
               executablePath := execPath.getD "/usr/bin/chromium",
               args := chromiumArgs }) := by
  constructor
  · intro h1 h2
    simp [puppeteerOptions, h1, h2]
  · intro h
    rcases h with h | h <;> simp [puppeteerOptions, h]

/-- Witness for C2: with a session present and no force flag the options
are `undefined`; with no session the full bootstrap configuration is
produced. -/
theorem launch_mode_selection_witness :
    puppeteerOptions true false none = none ∧
    puppeteerOptions false false none =
      some { headless := true, executablePath := "/usr/bin/chromium",
             args := chromiumArgs } :=
  ⟨(launch_mode_selection true false none).1 rfl rfl,
   (launch_mode_selection false false none).2 (Or.inl rfl)⟩

/-- C3 counterexample: the claim says the exponential policy "starts at
2 seconds", i.e. the delay after the first failed attempt is 2000 ms; but
`waitMs` doubles the 2000 ms base already on attempt 1
(`min(30000, 2000 * 2^1)`), so the first delay is 4000 ms, never 2000 ms. -/
theorem backoff_first_delay_not_two_seconds :
    waitMs 1 = 4000 ∧ waitMs 1 ≠ 2000 := by decide

/-- C3 amended: the backoff delay is monotonically non-decreasing in the
attempt number, bounded by the 30000 ms cap, and doubles per attempt up to
the cap; the retry ceiling is 6 attempts; but the first delay is 4000 ms
(the 2-second base is already doubled on attempt 1), not 2000 ms. -/
theorem backoff_monotone_capped :
    (∀ k, waitMs k ≤ waitMs (k + 1)) ∧
    (∀ k, waitMs k ≤ 30000) ∧
    (∀ k, waitMs (k + 1) = min 30000 (2 * waitMs k)) ∧
    waitMs 1 = 4000 ∧ MAX_INIT_RETRIES = 6 := by
  refine ⟨?_, ?_, ?_, by decide, rfl⟩
  · intro k
    apply min_le_min le_rfl
    have h2 : (2 : ℕ) ^ k ≤ 2 ^ (k + 1) :=
      Nat.pow_le_pow_right (by norm_num) (Nat.le_succ k)
    exact Nat.mul_le_mul_left 2000 h2
  · intro k
    exact min_le_left _ _
  · intro k
    have h : 2000 * 2 ^ (k + 1) = 2 * (2000 * 2 ^ k) := by ring
    rw [waitMs, waitMs, h]
    generalize 2000 * 2 ^ k = a
    omega

/-- C4: the backup is consulted only when the primary store is empty — any
store whose `sessions` collection holds at least one document is returned
unchanged with result `false`; and a second `restoreSessionsIfMissing`
immediately after a successful restore is a no-op returning `false` (the
first restore populated the primary collection, so the second
short-circuits and creates no duplicates). -/
theorem restore_primary_precedence_idempotent (st : Store) :
    (0 < st.sessions.length → restoreSessionsIfMissing st = (st, false)) ∧
    ((restoreSessionsIfMissing st).2 = true →
      restoreSessionsIfMissing (restoreSessionsIfMissing st).1 =
        ((restoreSessionsIfMissing st).1, false)) := by
  constructor
  · intro h
    simp [restoreSessionsIfMissing, h]
  · intro h2
    by_cases hlen : st.sessions.length > 0
    · exfalso
      simp [restoreSessionsIfMissing, hlen] at h2
    · cases hb : st.backup with
      | none =>
        exfalso
        simp [restoreSessionsIfMissing, hlen, hb] at h2
      | some data =>
        by_cases hd : data.length = 0
        · exfalso
          simp [restoreSessionsIfMissing, hlen, hb, hd] at h2
        · have hres : restoreSessionsIfMissing st =
              ({ st with sessions := List.foldl upsertOne st.sessions data }, true) := by
            simp [restoreSessionsIfMissing, hlen, hb, hd]
          rw [hres]
          have hne : List.foldl upsertOne st.sessions data ≠ [] := by
            cases hdata : data with
            | nil => exact absurd (by simp [hdata]) hd
            | cons d ds =>
              have h1 : List.foldl upsertOne st.sessions (d :: ds) =
                  List.foldl upsertOne (upsertOne st.sessions d) ds := rfl
              rw [h1]
              exact foldl_upsertOne_ne_nil ds _ (upsertOne_ne_nil st.sessions d)
          have hpos : 0 < (List.foldl upsertOne st.sessions data).length :=
            List.length_pos.mpr hne
          simp [restoreSessionsIfMissing, hpos]

/-- Witness for C4: a populated store is left untouched, and after a
successful restore of one backed-up document a second restore is a no-op. -/
theorem restore_primary_precedence_idempotent_witness :
    restoreSessionsIfMissing ⟨[⟨"a", "p"⟩], some [⟨"b", "q"⟩]⟩ =
      (⟨[⟨"a", "p"⟩], some [⟨"b", "q"⟩]⟩, false) ∧
    restoreSessionsIfMissing (restoreSessionsIfMissing ⟨[], some [⟨"b", "q"⟩]⟩).1 =
      ((restoreSessionsIfMissing ⟨[], some [⟨"b", "q"⟩]⟩).1, false) :=
  ⟨(restore_primary_precedence_idempotent ⟨[⟨"a", "p"⟩], some [⟨"b", "q"⟩]⟩).1
      (by decide),
   (restore_primary_precedence_idempotent ⟨[], some [⟨"b", "q"⟩]⟩).2 (by decide)⟩

/-- C5: a backup/restore round-trip is the identity on the primary
documents — for any record set with pairwise-distinct `_id`s, running
`backupSessions` and then `restoreSessionsIfMissing` against an emptied
primary collection reproduces exactly the original record set, upserted by
original identity with no duplication. -/
theorem backup_restore_roundtrip (docs : List SDoc) (b : Option (List SDoc))
    (h : (docs.map SDoc._id).Nodup) :
    (restoreSessionsIfMissing
        { sessions := [], backup := (backupSessions ⟨docs, b⟩).backup }).1.sessions
      = docs := by
  cases docs with
  | nil => simp [backupSessions, restoreSessionsIfMissing]
  | cons d ds =>
    have hlen : ¬((0 : ℕ) < ([] : List SDoc).length) := by simp
    have hd : ¬((d :: ds).length = 0) := by simp
    simp only [backupSessions, restoreSessionsIfMissing, List.length_nil,
      gt_iff_lt, hlen, if_false, hd]
    simpa using foldl_upsertOne_append (d :: ds) [] h (by simp)

/-- Witness for C5 at a concrete two-document store: backup followed by
restore on the emptied primary reproduces both documents. -/
theorem backup_restore_roundtrip_witness :
    (restoreSessionsIfMissing
        { sessions := [],
          backup := (backupSessions ⟨[⟨"a", "p"⟩, ⟨"b", "q"⟩], none⟩).backup }).1.sessions
      = [⟨"a", "p"⟩, ⟨"b", "q"⟩] :=
  backup_restore_roundtrip [⟨"a", "p"⟩, ⟨"b", "q"⟩] none (by decide)

/-- C6: the send endpoint's response protocol — 401 (no dispatch) when the
`x-password` header differs from the configured password; otherwise 400
(no dispatch) when `phone` or `message` is missing/falsy; otherwise 503
(no dispatch) when the client is not ready; otherwise 200 on dispatch
success and 500 with the error's diagnostic message on dispatch failure. -/
theorem sendmessage_status_codes (envPw xPw phone message : Option String)
    (ready : Bool) (dispatch : Except String Unit) :
    (xPw ≠ envPw →
      sendmessage envPw xPw phone message ready dispatch =
        ⟨401, false, some "Invalid password"⟩) ∧
    (xPw = envPw → (falsyStr phone || falsyStr message) = true →
      sendmessage envPw xPw phone message ready dispatch =
        ⟨400, false, some "phone & message required"⟩) ∧
    (xPw = envPw → (falsyStr phone || falsyStr message) = false → ready = false →
      sendmessage envPw xPw phone message ready dispatch =
        ⟨503, false, some "Client not ready"⟩) ∧
    (xPw = envPw → (falsyStr phone || falsyStr message) = false → ready = true →
      dispatch = .ok () →
      sendmessage envPw xPw phone message ready dispatch = ⟨200, true, none⟩) ∧
    (∀ e, xPw = envPw → (falsyStr phone || falsyStr message) = false → ready = true →
      dispatch = .error e →
      sendmessage envPw xPw phone message ready dispatch = ⟨500, true, some e⟩) := by
  refine ⟨?_, ?_, ?_, ?_, ?_⟩ <;> intros <;> simp_all [sendmessage]

/-- Witness for C6: the five response cases at concrete requests. -/
theorem sendmessage_status_codes_witness :
    sendmessage (some "pw") (some "bad") (some "123") (some "hi") true (.ok ()) =
      ⟨401, false, some "Invalid password"⟩ ∧
    sendmessage (some "pw") (some "pw") none (some "hi") true (.ok ()) =
      ⟨400, false, some "phone & message required"⟩ ∧
    sendmessage (some "pw") (some "pw") (some "123") (some "hi") false (.ok ()) =
      ⟨503, false, some "Client not ready"⟩ ∧
    sendmessage (some "pw") (some "pw") (some "123") (some "hi") true (.ok ()) =
      ⟨200, true, none⟩ ∧
    sendmessage (some "pw") (some "pw") (some "123") (some "hi") true
        (.error "boom") = ⟨500, true, some "boom"⟩ :=
  ⟨(sendmessage_status_codes (some "pw") (some "bad") (some "123") (some "hi")
      true (.ok ())).1 (by decide),
   (sendmessage_status_codes (some "pw") (some "pw") none (some "hi")
      true (.ok ())).2.1 rfl (by decide),
   (sendmessage_status_codes (some "pw") (some "pw") (some "123") (some "hi")
      false (.ok ())).2.2.1 rfl (by decide) rfl,
   (sendmessage_status_codes (some "pw") (some "pw") (some "123") (some "hi")
      true (.ok ())).2.2.2.1 rfl (by decide) rfl rfl,
   (sendmessage_status_codes (some "pw") (some "pw") (some "123") (some "hi")
      true (.error "boom")).2.2.2.2 "boom" rfl (by decide) rfl rfl⟩

/-- C7: the `ready` handler clears the Challenge Token (`qrValue` becomes
`none`), sets the ready flag, and performs exactly one immediate backup
call. -/
theorem ready_event_effects (s : CtrlState) :
    (onReady s).qrValue = none ∧ (onReady s).clientReady = true ∧
    (onReady s).backupCalls = s.backupCalls + 1 := by
  refine ⟨rfl, rfl, rfl⟩

/-- C8 counterexample: the claim says the disconnect-triggered restart is
always in resume mode and never re-evaluates credential presence.  But the
`disconnected` handler restarts by re-entering `initClient`, which re-runs
the `countDocuments` presence probe: with an empty `sessions` collection at
restart time the relaunch is in full-bootstrap (fresh) mode, while with a
populated collection it is in resume mode — the mode does depend on the
re-probed presence. -/
theorem disconnect_restart_reprobes_presence :
    disconnectRestartOptions ⟨[], none⟩ false none ≠ none ∧
    disconnectRestartOptions ⟨[⟨"a", "p"⟩], none⟩ false none = none := by
  constructor
  · simp [disconnectRestartOptions, hasSessionCheck, puppeteerOptions]
  · simp [disconnectRestartOptions, hasSessionCheck, puppeteerOptions]

/-- C8 amended: on a `disconnected` event the controller clears the ready
flag, destroys the existing Automation Session Handle before any
replacement is constructed, and schedules a restart through `initClient`
after exactly 15000 ms; the restart DOES re-evaluate the credential
presence check — it relaunches in resume mode exactly when a Credential
Record is still present and the force flag is unset, and in full-bootstrap
mode when the record is gone. -/
theorem disconnect_restart_behavior (s : CtrlState) (st : Store)
    (forceP : Bool) (execPath : Option String) :
    (onDisconnected s).state.clientReady = false ∧
    (onDisconnected s).destroyed = true ∧
    (onDisconnected s).delayMs = 15000 ∧
    (onDisconnected s).restartsInit = true ∧
    (hasSessionCheck st = true → forceP = false →
      disconnectRestartOptions st forceP execPath = none) ∧
    (hasSessionCheck st = false →
      (disconnectRestartOptions st forceP execPath).isSome = true) := by
  refine ⟨rfl, rfl, rfl, rfl, ?_, ?_⟩
  · intro h1 h2
    simp [disconnectRestartOptions, puppeteerOptions, h1, h2]
  · intro h1
    simp [disconnectRestartOptions, puppeteerOptions, h1]

/-- Witness for C8 (amended) at a concrete ready state and stores with and
without a session record. -/
theorem disconnect_restart_behavior_witness :
    (onDisconnected ⟨none, true, false, true, 1, 1⟩).state.clientReady = false ∧
    (onDisconnected ⟨none, true, false, true, 1, 1⟩).delayMs = 15000 ∧
    disconnectRestartOptions ⟨[⟨"a", "p"⟩], none⟩ false none = none ∧
    (disconnectRestartOptions ⟨[], none⟩ false none).isSome = true :=
  ⟨(disconnect_restart_behavior ⟨none, true, false, true, 1, 1⟩
      ⟨[⟨"a", "p"⟩], none⟩ false none).1,
   (disconnect_restart_behavior ⟨none, true, false, true, 1, 1⟩
      ⟨[⟨"a", "p"⟩], none⟩ false none).2.2.1,
   (disconnect_restart_behavior ⟨none, true, false, true, 1, 1⟩
      ⟨[⟨"a", "p"⟩], none⟩ false none).2.2.2.2.1 (by decide) rfl,
   (disconnect_restart_behavior ⟨none, true, false, true, 1, 1⟩
      ⟨[], none⟩ false none).2.2.2.2.2 (by decide)⟩

/-- C9 counterexample: the claim says a store-connectivity failure during
the startup connect makes the process exit non-zero.  But the startup block
of main.js wraps `connectMongo()` in a `try`/`catch` that only logs — at
the concrete input "connect fails", the process does not exit at all
(`exitCode = none`) and keeps serving HTTP. -/
theorem startup_connect_failure_not_fatal :
    (startupAfterListen false).exitCode = none ∧
    (startupAfterListen false).serving = true ∧
    (startupAfterListen false).loggedStartupError = true := by decide

/-- C9 amended: a store connection failure at startup is caught and logged;
the process keeps serving HTTP without starting the WhatsApp client and
never exits.  Only a falsy connection string (absent or empty
`MONGODB_URI`, in the part_003 variant's guard) is fatal, with exit
code 1; a present non-empty connection string passes the guard. -/
theorem startup_failure_semantics :
    startupAfterListen false =
      { serving := true, initClientCalled := false, exitCode := none,
        loggedStartupError := true } ∧
    startupAfterListen true =
      { serving := true, initClientCalled := true, exitCode := none,
        loggedStartupError := false } ∧
    mongoUriGuard none = some 1 ∧
    mongoUriGuard (some "") = some 1 ∧
    mongoUriGuard (some "mongodb+srv://cluster/db") = none := by decide

/-- C10: in the part_003 variant, when `WHATSAPP_API_PASSWORD` is absent or
the empty string the password check is skipped entirely — no value of the
`x-password` header ever produces a 401, so `/whatsapp/send` is effectively
unauthenticated. -/
theorem send_unauthenticated_when_no_password
    (envPwRaw xPw phone message : Option String) (ready : Bool)
    (dispatch : Except String Unit)
    (h : envPwRaw = none ∨ envPwRaw = some "") :
    (sendPart3 envPwRaw xPw phone message ready dispatch).status ≠ 401 := by
  have hpw : envPwRaw.getD "" = "" := by rcases h with h | h <;> simp [h]
  simp only [sendPart3, hpw, ne_eq, not_true_eq_false, false_and, if_false]
  split
  · simp
  · split
    · simp
    · rcases dispatch with _ | e <;> simp

/-- Witness for C10: with no configured password, a request carrying an
arbitrary wrong header value is not rejected with 401. -/
theorem send_unauthenticated_when_no_password_witness :
    (sendPart3 none (some "totally-wrong") (some "123") (some "hi") true
        (.ok ())).status ≠ 401 :=
  send_unauthenticated_when_no_password none (some "totally-wrong")
    (some "123") (some "hi") true (.ok ()) (Or.inl rfl)
